import Mathlib

set_option linter.unusedVariables false

/-!
Shallow embedding of `src/vs/workbench/api/electron-browser/mainThreadClipboard.ts`
(the debug-action enablement machinery and the main-thread clipboard bridge).

The debug domain model (sessions, breakpoints, watch expressions, launches) is
read by the actions through `IDebugService`; we embed exactly the fields the
excerpt reads.  `State` is the debug-state enumeration from
`vs/workbench/contrib/debug/common/debug`.
-/

/-- The debug lifecycle enumeration `State` read via `debugService.state`. -/
inductive State where
  | Inactive
  | Initializing
  | Stopped
  | Running
deriving DecidableEq, Repr

/-- A line breakpoint as the excerpt reads it: only its `enabled` flag matters
to the enablement predicates (`IEnablement`). -/
structure Breakpoint where
  enabled : Bool
deriving DecidableEq, Repr

/-- A function breakpoint: `enabled` flag plus a `name` (the empty string is
the JavaScript-falsy value of the name, i.e. a nameless breakpoint). -/
structure FunctionBreakpoint where
  enabled : Bool
  name : String
deriving DecidableEq, Repr

/-- An exception breakpoint: only its `enabled` flag is read here. -/
structure ExceptionBreakpoint where
  enabled : Bool
deriving DecidableEq, Repr

/-- A watch expression: only its `name` is read (`!!we.name`, empty = falsy). -/
structure WatchExpression where
  name : String
deriving DecidableEq, Repr

/-- A launch, read through `l.getConfigurationNames()`. -/
structure Launch where
  configurationNames : List String
deriving DecidableEq, Repr

/-- A debug session; the excerpt only counts sessions, so an id suffices. -/
structure DebugSession where
  id : String
deriving DecidableEq, Repr

/-- The debug model as read through `debugService.getModel()`:
`getBreakpoints()`, `getFunctionBreakpoints()`, `getExceptionBreakpoints()`,
`getWatchExpressions()`, `getSessions()`. -/
structure DebugModel where
  breakpoints : List Breakpoint
  functionBreakpoints : List FunctionBreakpoint
  exceptionBreakpoints : List ExceptionBreakpoint
  watchExpressions : List WatchExpression
  sessions : List DebugSession
deriving DecidableEq, Repr

/-- The view model as read through `debugService.getViewModel()`:
only `getSelectedFunctionBreakpoint()` is consulted by the predicates. -/
structure ViewModel where
  selectedFunctionBreakpoint : Option FunctionBreakpoint
deriving DecidableEq, Repr

/-- The configuration manager as read through
`debugService.getConfigurationManager().getLaunches()`. -/
structure ConfigurationManager where
  launches : List Launch
deriving DecidableEq, Repr

/-- The snapshot of `IDebugService` visible to the enablement predicates. -/
structure DebugService where
  state : State
  model : DebugModel
  viewModel : ViewModel
  configurationManager : ConfigurationManager
deriving DecidableEq, Repr

/-- The `IEnablement` interface: the common view of the three breakpoint kinds
used by the `concat(...).some(...)` expressions of Enable/Disable-all. -/
structure IEnablement where
  enabled : Bool
deriving DecidableEq, Repr

def Breakpoint.toIEnablement (b : Breakpoint) : IEnablement := ⟨b.enabled⟩

def FunctionBreakpoint.toIEnablement (b : FunctionBreakpoint) : IEnablement := ⟨b.enabled⟩

def ExceptionBreakpoint.toIEnablement (b : ExceptionBreakpoint) : IEnablement := ⟨b.enabled⟩

/-- The concatenation
`model.getBreakpoints().concat(model.getFunctionBreakpoints()).concat(model.getExceptionBreakpoints())`
appearing in `EnableAllBreakpointsAction.isEnabled` and
`DisableAllBreakpointsAction.isEnabled`. -/
def DebugModel.allEnablements (m : DebugModel) : List IEnablement :=
  m.breakpoints.map Breakpoint.toIEnablement
    ++ m.functionBreakpoints.map FunctionBreakpoint.toIEnablement
    ++ m.exceptionBreakpoints.map ExceptionBreakpoint.toIEnablement

namespace AbstractDebugAction

/-- Embeds `AbstractDebugAction.isEnabled(state)`: the base predicate, `return true`. -/
def isEnabled (ds : DebugService) (state : State) : Bool :=
  true

end AbstractDebugAction

namespace StartAction

/-- Embeds `StartAction.isEnabled(debugService)` (the static method): false while
`Initializing`; false when there is at least one session and every launch has
zero configuration names; true otherwise. -/
def isEnabledStatic (debugService : DebugService) : Bool :=
  let sessions := debugService.model.sessions
  if debugService.state = State.Initializing then
    false
  else if decide (sessions.length > 0)
      && debugService.configurationManager.launches.all
           (fun l => l.configurationNames.length == 0) then
    -- There is already a debug session running and we do not have any launch
    -- configuration selected
    false
  else
    true

/-- Embeds `StartAction.isEnabled()` (the instance override): delegates to the static
method on `this.debugService`, ignoring the passed state. -/
def isEnabled (ds : DebugService) (state : State) : Bool :=
  isEnabledStatic ds

end StartAction

namespace RemoveAllBreakpointsAction

/-- Embeds `RemoveAllBreakpointsAction.isEnabled(state)`. -/
def isEnabled (ds : DebugService) (state : State) : Bool :=
  let model := ds.model
  AbstractDebugAction.isEnabled ds state
    && (decide (model.breakpoints.length > 0)
        || decide (model.functionBreakpoints.length > 0))

end RemoveAllBreakpointsAction

namespace EnableAllBreakpointsAction

/-- Embeds `EnableAllBreakpointsAction.isEnabled(state)`: some breakpoint of any of
the three kinds is disabled. -/
def isEnabled (ds : DebugService) (state : State) : Bool :=
  AbstractDebugAction.isEnabled ds state
    && ds.model.allEnablements.any (fun bp => !bp.enabled)

end EnableAllBreakpointsAction

namespace DisableAllBreakpointsAction

/-- Embeds `DisableAllBreakpointsAction.isEnabled(state)`: some breakpoint of any of
the three kinds is enabled. -/
def isEnabled (ds : DebugService) (state : State) : Bool :=
  AbstractDebugAction.isEnabled ds state
    && ds.model.allEnablements.any (fun bp => bp.enabled)

end DisableAllBreakpointsAction

namespace ToggleBreakpointsActivatedAction

/-- Embeds `ToggleBreakpointsActivatedAction.isEnabled(state)`. -/
def isEnabled (ds : DebugService) (state : State) : Bool :=
  decide (ds.model.functionBreakpoints.length + ds.model.breakpoints.length > 0)

end ToggleBreakpointsActivatedAction

namespace ReapplyBreakpointsAction

/-- Embeds `ReapplyBreakpointsAction.isEnabled(state)`. -/
def isEnabled (ds : DebugService) (state : State) : Bool :=
  let model := ds.model
  AbstractDebugAction.isEnabled ds state
    && (state = State.Running || state = State.Stopped)
    && decide (model.functionBreakpoints.length + model.breakpoints.length
        + model.exceptionBreakpoints.length > 0)

end ReapplyBreakpointsAction

namespace AddFunctionBreakpointAction

/-- Embeds `AddFunctionBreakpointAction.isEnabled(state)`: no selected function
breakpoint in the view model, and every function breakpoint has a truthy
(non-empty) name. -/
def isEnabled (ds : DebugService) (state : State) : Bool :=
  !(ds.viewModel.selectedFunctionBreakpoint).isSome
    && ds.model.functionBreakpoints.all (fun fbp => !(fbp.name == ""))

end AddFunctionBreakpointAction

namespace AddWatchExpressionAction

/-- Embeds `AddWatchExpressionAction.isEnabled(state)`: every watch expression has a
truthy (non-empty) name. -/
def isEnabled (ds : DebugService) (state : State) : Bool :=
  AbstractDebugAction.isEnabled ds state
    && ds.model.watchExpressions.all (fun we => !(we.name == ""))

end AddWatchExpressionAction

namespace RemoveAllWatchExpressionsAction

/-- Embeds `RemoveAllWatchExpressionsAction.isEnabled(state)`. -/
def isEnabled (ds : DebugService) (state : State) : Bool :=
  AbstractDebugAction.isEnabled ds state
    && decide (ds.model.watchExpressions.length > 0)

end RemoveAllWatchExpressionsAction

/-!
The event machine of `AbstractDebugAction`.

The constructor runs `super(id, label, cssClass, false)` (enabled := false),
pushes the `onDidChangeState` subscription into `toDispose`, and calls
`updateEnablement()`; concrete subclasses then push their extra subscriptions.
`updateEnablement(state = this.debugService.state)` is the only writer of
`enabled` and sets it to `this.isEnabled(state)`.  `dispose()` drains
`toDispose` (`lifecycle.dispose` disposes each subscription and returns the
empty array).

A predicate is a function of the whole `IDebugService` snapshot plus the
`state` argument, since concrete overrides read `this.debugService` directly.
-/

/-- The notification streams an action can subscribe to in this excerpt. -/
inductive EventKind where
  | didChangeState
  | didChangeBreakpoints
  | didChangeWatchExpressions
  | didNewSession
  | didEndSession
  | didChangeWorkbenchState
  | didSelectConfiguration
deriving DecidableEq, Repr

/-- The observable action state: the `enabled` flag and the event
subscriptions held in `toDispose`. -/
structure ActionCore where
  enabled : Bool
  toDispose : List EventKind
deriving DecidableEq, Repr

namespace AbstractDebugAction

/-- Embeds `updateEnablement(state = this.debugService.state)`:
`this.enabled = this.isEnabled(state)`, with the default argument reading the
current state of the service snapshot `ds`. -/
def updateEnablement (pred : DebugService → State → Bool) (ds : DebugService)
    (a : ActionCore) : ActionCore :=
  { a with enabled := pred ds ds.state }

/-- The `AbstractDebugAction` constructor followed by the subclass
constructor's `toDispose.push(...)` calls (`extraSubs`): starts from
`enabled = false`, subscribes `onDidChangeState`, runs `updateEnablement()`
against the construction-time snapshot, then records the extra subscriptions
(pushing a subscription does not touch `enabled`). -/
def construct (pred : DebugService → State → Bool) (extraSubs : List EventKind)
    (ds : DebugService) : ActionCore :=
  let base := updateEnablement pred ds
    { enabled := false, toDispose := [EventKind.didChangeState] }
  { base with toDispose := base.toDispose ++ extraSubs }

/-- Dispatch of one change notification: every handler registered in this
excerpt calls `this.updateEnablement(...)` against the then-current snapshot
`ds`; an action only receives events it is subscribed to, so an unsubscribed
event leaves the action untouched. -/
def dispatch (pred : DebugService → State → Bool) (a : ActionCore)
    (ev : EventKind) (ds : DebugService) : ActionCore :=
  if ev ∈ a.toDispose then updateEnablement pred ds a else a

/-- Embeds `dispose()`: `this.toDispose = lifecycle.dispose(this.toDispose)` —
every subscription is released and the list becomes empty. -/
def dispose (a : ActionCore) : ActionCore :=
  { a with toDispose := [] }

end AbstractDebugAction

/-!
The clipboard bridge (`MainThreadCommands`, implementing
`MainThreadClipboardShape`).  The native electron clipboard is modelled as a
single string of state; `$readText`/`$writeText` are embedded as `readText`/
`writeText` (Lean names cannot start with `$`).
-/

namespace clipboard

/-- Embeds `clipboard.readText()` of electron: returns the clipboard text. -/
def readText (clip : String) : String := clip

/-- Embeds `clipboard.writeText(value)` of electron: replaces the clipboard text. -/
def writeText (value : String) (clip : String) : String := value

end clipboard

namespace MainThreadCommands

/-- Embeds `$readText(): Promise<string>` — `Promise.resolve(clipboard.readText())`:
delivers the clipboard text unchanged. -/
def readText (clip : String) : String :=
  clipboard.readText clip

/-- Embeds `$writeText(value): Promise<void>` — `clipboard.writeText(value)` and a
resolved promise: yields the new clipboard state. -/
def writeText (value : String) (clip : String) : String :=
  clipboard.writeText value clip

/-- Embeds `dispose(): void` — nothing. -/
def dispose : Unit := ()

end MainThreadCommands

/-!
`CopyValueAction`.  It extends `Action` directly (not `AbstractDebugAction`):
its constructor sets `_enabled` once and registers no subscription.  `value`
is `any`; the paths of `run()` distinguish a string, a `Variable` (of which
`evaluateName` and `value` are read; a missing/empty `evaluateName` is the
JavaScript-falsy case), and anything else.
-/

/-- The `value: any` constructor argument of `CopyValueAction`, split by the
`typeof value === 'string'` / `value instanceof Variable` tests of the code. -/
inductive CopyValue where
  | str (s : String)
  | variable (evaluateName : String) (value : String)
  | other
deriving DecidableEq, Repr

namespace CopyValue

/-- Embeds `typeof this.value === 'string'`. -/
def isString : CopyValue → Bool
  | .str _ => true
  | _ => false

/-- Embeds `this.value instanceof Variable`. -/
def isVariable : CopyValue → Bool
  | .variable _ _ => true
  | _ => false

/-- Embeds `!!this.value.evaluateName` on a `Variable` (false on anything else). -/
def hasEvaluateName : CopyValue → Bool
  | .variable en _ => !(en == "")
  | _ => false

/-- The text `writeText(this.value)` receives on the fall-through path: the
string itself for a string value; for the remaining (enablement-excluded)
cases the value's textual content stands in for the coerced object. -/
def toClipboardText : CopyValue → String
  | .str s => s
  | .variable _ v => v
  | .other => ""

end CopyValue

namespace CopyValueAction

/-- The `CopyValueAction` constructor:
`this._enabled = typeof this.value === 'string' || (this.value instanceof
Variable && !!this.value.evaluateName)`; no subscription is registered, so the
action core carries an empty `toDispose`. -/
def construct (value : CopyValue) : ActionCore :=
  { enabled := value.isString || (value.isVariable && value.hasEvaluateName)
    toDispose := [] }

end CopyValueAction

/-- The promise outcome of a `run()` call. -/
inductive PromiseOutcome where
  | resolved
  | rejected
deriving DecidableEq, Repr

/-- The environment a `CopyValueAction.run` touches: the clipboard text and
the number of `session.evaluate` calls issued so far. -/
structure RunEnv where
  clipboardText : String
  evalCalls : Nat
deriving DecidableEq, Repr

namespace CopyValueAction

/-- Embeds `CopyValueAction.run()`.  `session.evaluate(...)` is an external
asynchronous call; its single outcome is supplied as the oracle `evalResult`
and every issued call increments `evalCalls`.  On the `Variable` path with a
focused stack frame and session and a truthy `evaluateName`, a successful
evaluation writes `result.body.result`; the rejection handler
(`err => this.clipboardService.writeText(this.value.value)`) writes the raw
pre-evaluated `this.value.value` and, being a fulfilled handler result, the
returned promise resolves.  Every other path writes `this.value` directly and
resolves. -/
def run (value : CopyValue) (hasStackFrame hasSession : Bool)
    (evalResult : Except String String) (env : RunEnv) :
    RunEnv × PromiseOutcome :=
  match value with
  | .variable en v =>
    if hasStackFrame && hasSession && !(en == "") then
      let env := { env with evalCalls := env.evalCalls + 1 }
      match evalResult with
      | .ok r => ({ env with clipboardText := clipboard.writeText r env.clipboardText }, .resolved)
      | .error _ => ({ env with clipboardText := clipboard.writeText v env.clipboardText }, .resolved)
    else
      ({ env with clipboardText := clipboard.writeText (CopyValue.toClipboardText value) env.clipboardText }, .resolved)
  | _ =>
    ({ env with clipboardText := clipboard.writeText (CopyValue.toClipboardText value) env.clipboardText }, .resolved)

end CopyValueAction

/-!
`RemoveAllBreakpointsAction.run()` calls two `IDebugService` operations whose
implementation lives outside this excerpt.
-/

namespace IDebugService

/-- Modelled from the spec: `debugService.removeBreakpoints()` (implementation
outside this excerpt) — with no argument it removes every line breakpoint
("Remove-all-breakpoints ... removes every line breakpoint"). -/
def removeBreakpoints (m : DebugModel) : DebugModel :=
  { m with breakpoints := [] }

/-- Modelled from the spec: `debugService.removeFunctionBreakpoints()`
(implementation outside this excerpt) — with no argument it removes every
function breakpoint. -/
def removeFunctionBreakpoints (m : DebugModel) : DebugModel :=
  { m with functionBreakpoints := [] }

end IDebugService

namespace RemoveAllBreakpointsAction

/-- Embeds `RemoveAllBreakpointsAction.run()`:
`Promise.all([removeBreakpoints(), removeFunctionBreakpoints()])` — both
domain operations are performed on the model. -/
def run (m : DebugModel) : DebugModel :=
  IDebugService.removeFunctionBreakpoints (IDebugService.removeBreakpoints m)

end RemoveAllBreakpointsAction

/-!
Concrete states, used by the witness instantiations below.
-/

/-- A populated debug-service snapshot: one enabled line breakpoint, one named
enabled function breakpoint, one disabled exception breakpoint, one named
watch expression, one session, one launch with one configuration. -/
def sampleDS : DebugService :=
  { state := State.Running
    model :=
      { breakpoints := [⟨true⟩]
        functionBreakpoints := [⟨true, "f"⟩]
        exceptionBreakpoints := [⟨false⟩]
        watchExpressions := [⟨"w"⟩]
        sessions := [⟨"s1"⟩] }
    viewModel := { selectedFunctionBreakpoint := none }
    configurationManager := { launches := [⟨["Launch A"]⟩] } }

/-- A second snapshot differing from `sampleDS` in state and breakpoints. -/
def sampleDS2 : DebugService :=
  { state := State.Stopped
    model :=
      { breakpoints := []
        functionBreakpoints := [⟨true, "g"⟩]
        exceptionBreakpoints := []
        watchExpressions := []
        sessions := [] }
    viewModel := { selectedFunctionBreakpoint := none }
    configurationManager := { launches := [] } }

/-- The debug model with every collection empty. -/
def emptyModel : DebugModel :=
  { breakpoints := []
    functionBreakpoints := []
    exceptionBreakpoints := []
    watchExpressions := []
    sessions := [] }

/-- A debug-service snapshot over the empty model. -/
def emptyDS : DebugService :=
  { state := State.Inactive
    model := emptyModel
    viewModel := { selectedFunctionBreakpoint := none }
    configurationManager := { launches := [] } }

/-- A homogeneous snapshot: every breakpoint of every kind is enabled. -/
def allEnabledDS : DebugService :=
  { state := State.Running
    model :=
      { breakpoints := [⟨true⟩, ⟨true⟩]
        functionBreakpoints := [⟨true, "f"⟩]
        exceptionBreakpoints := [⟨true⟩]
        watchExpressions := []
        sessions := [] }
    viewModel := { selectedFunctionBreakpoint := none }
    configurationManager := { launches := [] } }

/-- The extra subscriptions the `StartAction` constructor pushes:
`onDidSelectConfiguration`, `onDidNewSession`, `onDidEndSession`,
`onDidChangeWorkbenchState`. -/
def startActionSubs : List EventKind :=
  [EventKind.didSelectConfiguration, EventKind.didNewSession,
   EventKind.didEndSession, EventKind.didChangeWorkbenchState]

/-- A `StartAction` constructed against `sampleDS`. -/
def sampleStartAction : ActionCore :=
  AbstractDebugAction.construct StartAction.isEnabled startActionSubs sampleDS

/-- C5: the clipboard bridge is a raw passthrough: `$writeText(value)` followed
by `$readText()` yields exactly `value`, with no transformation of the text;
in particular writing `"hello"` reads back `"hello"`. -/
theorem clipboardBridge_roundtrip (clip value : String) :
    MainThreadCommands.readText (MainThreadCommands.writeText value clip) = value
    ∧ MainThreadCommands.readText (MainThreadCommands.writeText "hello" clip) = "hello"
    ∧ MainThreadCommands.writeText value clip = value
    ∧ MainThreadCommands.readText clip = clip := by
  exact ⟨rfl, rfl, rfl, rfl⟩

/-- C7: `dispose()` releases every registered subscription synchronously (the
`toDispose` list becomes empty), a notification dispatched after disposal
leaves the action — in particular its `enabled` flag — untouched, and a second
`dispose()` is a no-op (no error: `dispose` is a total function). -/
theorem dispose_releases_subscriptions_and_is_idempotent
    (pred : DebugService → State → Bool) (a : ActionCore) (ev : EventKind)
    (ds : DebugService) :
    (AbstractDebugAction.dispose a).toDispose = []
    ∧ AbstractDebugAction.dispatch pred (AbstractDebugAction.dispose a) ev ds
        = AbstractDebugAction.dispose a
    ∧ (AbstractDebugAction.dispatch pred (AbstractDebugAction.dispose a) ev ds).enabled
        = a.enabled
    ∧ AbstractDebugAction.dispose (AbstractDebugAction.dispose a)
        = AbstractDebugAction.dispose a := by
  refine ⟨rfl, ?_, ?_, rfl⟩ <;>
    simp [AbstractDebugAction.dispose, AbstractDebugAction.dispatch]

/-- C9: the Copy-value action is enabled at construction iff its value is a
string or a `Variable` with a truthy (non-empty) `evaluateName`; it registers
no subscription, so no later notification dispatch changes its enablement. -/
theorem copyValueAction_construct_enablement
    (value : CopyValue) (pred : DebugService → State → Bool) (ev : EventKind)
    (ds : DebugService) :
    ((CopyValueAction.construct value).enabled = true ↔
        (∃ s, value = CopyValue.str s)
        ∨ (∃ en v, value = CopyValue.variable en v ∧ en ≠ ""))
    ∧ (CopyValueAction.construct value).toDispose = []
    ∧ AbstractDebugAction.dispatch pred (CopyValueAction.construct value) ev ds
        = CopyValueAction.construct value := by
  refine ⟨?_, rfl, ?_⟩
  · cases value <;>
      simp [CopyValueAction.construct, CopyValue.isString, CopyValue.isVariable,
        CopyValue.hasEvaluateName]
  · simp [AbstractDebugAction.dispatch, CopyValueAction.construct]

/-- C6: when `run()` evaluates a `Variable` (focused stack frame and session
present, truthy `evaluateName`) and the evaluation rejects, the action writes
the pre-evaluated raw `this.value.value` to the clipboard, the returned
promise resolves (the rejection is not surfaced), and the evaluation was
issued exactly once (no retry). -/
theorem copyValueAction_run_eval_failure_fallback
    (en v err clip : String) (calls : Nat) (hen : en ≠ "") :
    CopyValueAction.run (CopyValue.variable en v) true true (Except.error err)
        { clipboardText := clip, evalCalls := calls }
      = ({ clipboardText := v, evalCalls := calls + 1 }, PromiseOutcome.resolved) := by
  simp [CopyValueAction.run, clipboard.writeText, hen]

/-- Witness for C6 at a concrete variable, error and environment. -/
theorem copyValueAction_run_eval_failure_fallback_witness :
    "x" ≠ ""
    ∧ CopyValueAction.run (CopyValue.variable "x" "raw") true true
          (Except.error "evaluation failed") { clipboardText := "old", evalCalls := 0 }
        = ({ clipboardText := "raw", evalCalls := 1 }, PromiseOutcome.resolved) :=
  ⟨by decide, copyValueAction_run_eval_failure_fallback "x" "raw" "evaluation failed"
      "old" 0 (by decide)⟩

/-- C10: running Remove-all-breakpoints empties the line and function
breakpoint collections, leaves the exception breakpoints (and watch
expressions and sessions) unchanged, and its enablement predicate is likewise
insensitive to the exception breakpoint collection. -/
theorem removeAllBreakpointsAction_run_frame
    (m : DebugModel) (ds : DebugService) (state : State)
    (ebps : List ExceptionBreakpoint) :
    (RemoveAllBreakpointsAction.run m).breakpoints = []
    ∧ (RemoveAllBreakpointsAction.run m).functionBreakpoints = []
    ∧ (RemoveAllBreakpointsAction.run m).exceptionBreakpoints = m.exceptionBreakpoints
    ∧ (RemoveAllBreakpointsAction.run m).watchExpressions = m.watchExpressions
    ∧ (RemoveAllBreakpointsAction.run m).sessions = m.sessions
    ∧ RemoveAllBreakpointsAction.isEnabled
          { ds with model := { ds.model with exceptionBreakpoints := ebps } } state
        = RemoveAllBreakpointsAction.isEnabled ds state := by
  refine ⟨rfl, rfl, rfl, rfl, rfl, ?_⟩
  simp [RemoveAllBreakpointsAction.isEnabled, AbstractDebugAction.isEnabled]

/-- C1: for every action built on `AbstractDebugAction`, `enabled` equals the
action's own `isEnabled` predicate on the current snapshot — immediately after
construction, and after any dispatched notification the action is subscribed
to; `updateEnablement` sets `enabled` to `isEnabled(state)` and every dispatch
either leaves the action unchanged or goes through `updateEnablement`. -/
theorem abstractDebugAction_enabled_matches_predicate
    (pred : DebugService → State → Bool) (extraSubs : List EventKind)
    (ds ds' : DebugService) (a : ActionCore) (ev ev₂ : EventKind)
    (hrel : ev ∈ a.toDispose) :
    (AbstractDebugAction.construct pred extraSubs ds).enabled = pred ds ds.state
    ∧ (AbstractDebugAction.dispatch pred a ev ds').enabled = pred ds' ds'.state
    ∧ (AbstractDebugAction.updateEnablement pred ds a).enabled = pred ds ds.state
    ∧ (AbstractDebugAction.dispatch pred a ev₂ ds' = a
        ∨ AbstractDebugAction.dispatch pred a ev₂ ds'
            = AbstractDebugAction.updateEnablement pred ds' a) := by
  refine ⟨rfl, ?_, rfl, ?_⟩
  · simp [AbstractDebugAction.dispatch, hrel, AbstractDebugAction.updateEnablement]
  · by_cases h : ev₂ ∈ a.toDispose <;> simp [AbstractDebugAction.dispatch, h]

/-- Witness for C1: the `StartAction` built against `sampleDS`, a state-change
notification carrying the snapshot `sampleDS2`, and a breakpoint notification
it is not subscribed to. -/
theorem abstractDebugAction_enabled_matches_predicate_witness :
    EventKind.didChangeState ∈ sampleStartAction.toDispose
    ∧ ((AbstractDebugAction.construct StartAction.isEnabled startActionSubs
            sampleDS).enabled = StartAction.isEnabled sampleDS sampleDS.state
      ∧ (AbstractDebugAction.dispatch StartAction.isEnabled sampleStartAction
            EventKind.didChangeState sampleDS2).enabled
          = StartAction.isEnabled sampleDS2 sampleDS2.state
      ∧ (AbstractDebugAction.updateEnablement StartAction.isEnabled sampleDS
            sampleStartAction).enabled = StartAction.isEnabled sampleDS sampleDS.state
      ∧ (AbstractDebugAction.dispatch StartAction.isEnabled sampleStartAction
            EventKind.didChangeBreakpoints sampleDS2 = sampleStartAction
          ∨ AbstractDebugAction.dispatch StartAction.isEnabled sampleStartAction
              EventKind.didChangeBreakpoints sampleDS2
            = AbstractDebugAction.updateEnablement StartAction.isEnabled sampleDS2
                sampleStartAction)) :=
  ⟨by decide,
    abstractDebugAction_enabled_matches_predicate StartAction.isEnabled
      startActionSubs sampleDS sampleDS2 sampleStartAction
      EventKind.didChangeState EventKind.didChangeBreakpoints (by decide)⟩

/-- C2: the Start action's predicate is true exactly when the state is not
`Initializing` and it is not the case that at least one session exists while
every launch has zero configuration names. -/
theorem startAction_isEnabled_spec (ds : DebugService) (state : State) :
    StartAction.isEnabled ds state = true ↔
      ds.state ≠ State.Initializing
      ∧ ¬(0 < ds.model.sessions.length
          ∧ ∀ l ∈ ds.configurationManager.launches,
              l.configurationNames.length = 0) := by
  unfold StartAction.isEnabled StartAction.isEnabledStatic
  have hcond : (decide (ds.model.sessions.length > 0)
      && ds.configurationManager.launches.all
           (fun l => l.configurationNames.length == 0)) = true
      ↔ (0 < ds.model.sessions.length
         ∧ ∀ l ∈ ds.configurationManager.launches,
             l.configurationNames.length = 0) := by
    rw [Bool.and_eq_true, decide_eq_true_eq, List.all_eq_true]
    simp only [beq_iff_eq]
  by_cases h : ds.state = State.Initializing
  · simp [h]
  · rw [if_neg h]
    constructor
    · intro ht
      refine ⟨h, fun hc => ?_⟩
      rw [if_pos (hcond.mpr hc)] at ht
      simp at ht
    · rintro ⟨-, hnc⟩
      rw [if_neg (fun hc => hnc (hcond.mp hc))]

/-- C3: the Add-function-breakpoint predicate is true iff no function
breakpoint is selected (mid-edit) and every function breakpoint has a
non-empty name; adding a nameless function breakpoint makes it false, and
giving that breakpoint a non-empty name makes it true again. -/
theorem addFunctionBreakpointAction_isEnabled_spec
    (ds ds₂ : DebugService) (state state₂ : State) (e : Bool) (n : String)
    (hsel : ds.viewModel.selectedFunctionBreakpoint = none)
    (hnamed : ∀ fbp ∈ ds.model.functionBreakpoints, fbp.name ≠ "")
    (hn : n ≠ "") :
    (AddFunctionBreakpointAction.isEnabled ds₂ state₂ = true ↔
        ds₂.viewModel.selectedFunctionBreakpoint = none
        ∧ ∀ fbp ∈ ds₂.model.functionBreakpoints, fbp.name ≠ "")
    ∧ AddFunctionBreakpointAction.isEnabled
        { ds with model := { ds.model with
            functionBreakpoints := ds.model.functionBreakpoints
              ++ [{ enabled := e, name := "" }] } } state = false
    ∧ AddFunctionBreakpointAction.isEnabled
        { ds with model := { ds.model with
            functionBreakpoints := ds.model.functionBreakpoints
              ++ [{ enabled := e, name := n }] } } state = true := by
  refine ⟨?_, ?_, ?_⟩
  · simp [AddFunctionBreakpointAction.isEnabled, List.all_eq_true,
      Option.not_isSome_iff_eq_none]
  · simp [AddFunctionBreakpointAction.isEnabled]
  · simp [AddFunctionBreakpointAction.isEnabled, hsel, List.all_append,
      List.all_eq_true, hn]
    intro fbp hf
    simpa using hnamed fbp hf

/-- Witness for C3: `sampleDS` (one named function breakpoint, nothing
selected), with a nameless breakpoint added and then named `"nf"`. -/
theorem addFunctionBreakpointAction_isEnabled_spec_witness :
    sampleDS.viewModel.selectedFunctionBreakpoint = none
    ∧ (∀ fbp ∈ sampleDS.model.functionBreakpoints, fbp.name ≠ "")
    ∧ "nf" ≠ ""
    ∧ ((AddFunctionBreakpointAction.isEnabled sampleDS2 State.Stopped = true ↔
          sampleDS2.viewModel.selectedFunctionBreakpoint = none
          ∧ ∀ fbp ∈ sampleDS2.model.functionBreakpoints, fbp.name ≠ "")
      ∧ AddFunctionBreakpointAction.isEnabled
          { sampleDS with model := { sampleDS.model with
              functionBreakpoints := sampleDS.model.functionBreakpoints
                ++ [{ enabled := false, name := "" }] } } State.Running = false
      ∧ AddFunctionBreakpointAction.isEnabled
          { sampleDS with model := { sampleDS.model with
              functionBreakpoints := sampleDS.model.functionBreakpoints
                ++ [{ enabled := false, name := "nf" }] } } State.Running = true) :=
  ⟨by decide, by decide, by decide,
    addFunctionBreakpointAction_isEnabled_spec sampleDS sampleDS2 State.Running
      State.Stopped false "nf" (by decide) (by decide) (by decide)⟩

/-- C4: on a homogeneous breakpoint collection (every breakpoint of the three
kinds enabled, or every one disabled, including the empty collection) the
Enable-all and Disable-all predicates are never both true. -/
theorem enableAll_disableAll_mutually_exclusive_when_homogeneous
    (ds : DebugService) (state : State)
    (hhom : (∀ e ∈ ds.model.allEnablements, e.enabled = true)
          ∨ ∀ e ∈ ds.model.allEnablements, e.enabled = false) :
    ¬(EnableAllBreakpointsAction.isEnabled ds state = true
      ∧ DisableAllBreakpointsAction.isEnabled ds state = true) := by
  rintro ⟨h1, h2⟩
  simp only [EnableAllBreakpointsAction.isEnabled,
    DisableAllBreakpointsAction.isEnabled, AbstractDebugAction.isEnabled,
    Bool.true_and, List.any_eq_true, Bool.not_eq_true'] at h1 h2
  obtain ⟨a, ha, hna⟩ := h1
  obtain ⟨b, hb, hbe⟩ := h2
  rcases hhom with hall | hall
  · rw [hall a ha] at hna
    cases hna
  · rw [hall b hb] at hbe
    cases hbe

/-- Witness for C4: `allEnabledDS`, where every breakpoint is enabled. -/
theorem enableAll_disableAll_mutually_exclusive_when_homogeneous_witness :
    ((∀ e ∈ allEnabledDS.model.allEnablements, e.enabled = true)
      ∨ ∀ e ∈ allEnabledDS.model.allEnablements, e.enabled = false)
    ∧ ¬(EnableAllBreakpointsAction.isEnabled allEnabledDS State.Running = true
        ∧ DisableAllBreakpointsAction.isEnabled allEnabledDS State.Running = true) :=
  ⟨by decide,
    enableAll_disableAll_mutually_exclusive_when_homogeneous allEnabledDS
      State.Running (by decide)⟩

/-- C8 counterexample: on the empty collection state the Add-watch-expression
predicate does NOT evaluate its condition to false — `every` over an empty
collection is vacuously true, so the predicate is true. -/
theorem addWatchExpression_not_false_on_empty_collection :
    ¬(AddWatchExpressionAction.isEnabled emptyDS State.Inactive = false) := by
  decide

/-- C8 (amended): every enablement predicate is a total function (no
exceptions can be raised in the embedding); on empty collections they evaluate
without error — the existence-style conditions (remove-all, enable-all,
disable-all, toggle-activated, reapply, remove-all-watch) yield false, while
the universally-quantified conditions (add-watch, add-function-breakpoint with
no selection) yield true vacuously. -/
theorem enablement_predicates_on_empty_collections
    (ds : DebugService) (state : State) (hempty : ds.model = emptyModel) :
    RemoveAllBreakpointsAction.isEnabled ds state = false
    ∧ EnableAllBreakpointsAction.isEnabled ds state = false
    ∧ DisableAllBreakpointsAction.isEnabled ds state = false
    ∧ ToggleBreakpointsActivatedAction.isEnabled ds state = false
    ∧ ReapplyBreakpointsAction.isEnabled ds state = false
    ∧ RemoveAllWatchExpressionsAction.isEnabled ds state = false
    ∧ AddWatchExpressionAction.isEnabled ds state = true
    ∧ (ds.viewModel.selectedFunctionBreakpoint = none →
        AddFunctionBreakpointAction.isEnabled ds state = true) := by
  refine ⟨?_, ?_, ?_, ?_, ?_, ?_, ?_, fun hsel => by
      simp [AddFunctionBreakpointAction.isEnabled, hempty, emptyModel, hsel]⟩ <;>
    simp [RemoveAllBreakpointsAction.isEnabled,
      EnableAllBreakpointsAction.isEnabled, DisableAllBreakpointsAction.isEnabled,
      ToggleBreakpointsActivatedAction.isEnabled, ReapplyBreakpointsAction.isEnabled,
      RemoveAllWatchExpressionsAction.isEnabled, AddWatchExpressionAction.isEnabled,
      AbstractDebugAction.isEnabled, DebugModel.allEnablements, hempty, emptyModel]

/-- Witness for C8 (amended) at the empty snapshot `emptyDS`. -/
theorem enablement_predicates_on_empty_collections_witness :
    emptyDS.model = emptyModel
    ∧ (RemoveAllBreakpointsAction.isEnabled emptyDS State.Inactive = false
      ∧ EnableAllBreakpointsAction.isEnabled emptyDS State.Inactive = false
      ∧ DisableAllBreakpointsAction.isEnabled emptyDS State.Inactive = false
      ∧ ToggleBreakpointsActivatedAction.isEnabled emptyDS State.Inactive = false
      ∧ ReapplyBreakpointsAction.isEnabled emptyDS State.Inactive = false
      ∧ RemoveAllWatchExpressionsAction.isEnabled emptyDS State.Inactive = false
      ∧ AddWatchExpressionAction.isEnabled emptyDS State.Inactive = true
      ∧ (emptyDS.viewModel.selectedFunctionBreakpoint = none →
          AddFunctionBreakpointAction.isEnabled emptyDS State.Inactive = true)) :=
  ⟨rfl, enablement_predicates_on_empty_collections emptyDS State.Inactive rfl⟩
